import Mathlib

/-!
Verification of the resilient orchestration and observability engine of the
3AI platform: circuit breaker, health metrics, recovery strategies,
orchestrator dispatch, sliding-window rate limiter and metrics prediction.

The definitions below are shallow embeddings of the Python source:
  - `src/core/agent_orchestration.py` (CircuitBreaker, BaseAgent,
    AgentOrchestrator, recovery strategies, health metrics),
  - `src/core/monitoring/rate_limiter.py` (SlidingWindowRateLimiter),
  - `src/core/monitoring/__init__.py` (MonitoringService._predict_metrics).

Timestamps from `datetime.now()` are modelled as natural numbers of whole
seconds; `time.time()` values and float arithmetic are modelled as exact
rationals.  In-place mutation in Python becomes explicit state passing.
-/

/-! ## CircuitBreaker (agent_orchestration.py lines 88-113) -/

/-- The `AgentState` enum (agent_orchestration.py lines 81-86). -/
inductive AgentState where
  | idle
  | running
  | failed
  | recovering
  | stopped
deriving DecidableEq, Repr

/-- The `CircuitBreaker` dataclass (agent_orchestration.py lines 88-94).
`last_failure : Optional[datetime]` is modelled as `Option ℕ` (seconds). -/
structure CircuitBreaker where
  failure_threshold : ℕ := 3
  recovery_timeout : ℕ := 300
  failure_count : ℕ := 0
  last_failure : Option ℕ := none
  is_open : Bool := false
deriving DecidableEq, Repr

/-- Method `CircuitBreaker.record_failure` (lines 96-100): increment the count,
stamp the failure time, open the breaker once the count reaches the
threshold. -/
def CircuitBreaker.record_failure (cb : CircuitBreaker) (now : ℕ) :
    CircuitBreaker :=
  let cb := { cb with failure_count := cb.failure_count + 1,
                      last_failure := some now }
  if cb.failure_count ≥ cb.failure_threshold then
    { cb with is_open := true }
  else
    cb

/-- Method `CircuitBreaker.record_success` (lines 102-104). -/
def CircuitBreaker.record_success (cb : CircuitBreaker) : CircuitBreaker :=
  { cb with failure_count := 0, is_open := false }

/-- Method `CircuitBreaker.should_allow_request` (lines 106-113).  The Python code
compares `(datetime.now() - self.last_failure).seconds` — the `seconds`
component of a `timedelta`, i.e. the elapsed whole seconds modulo 86400 —
with `recovery_timeout`.  Returns the admission decision together with the
(possibly reset) breaker, since the method mutates `self` on the timed
half-open admission. -/
def CircuitBreaker.should_allow_request (cb : CircuitBreaker) (now : ℕ) :
    Bool × CircuitBreaker :=
  if cb.is_open = false then
    (true, cb)
  else
    match cb.last_failure with
    | some lf =>
        if (now - lf) % 86400 > cb.recovery_timeout then
          (true, { cb with is_open := false, failure_count := 0 })
        else
          (false, cb)
    | none => (false, cb)

/-- A fresh breaker, as produced by `CircuitBreaker()` in Python. -/
def CircuitBreaker.fresh : CircuitBreaker := {}

/-- The breaker obtained from a fresh one by three `record_failure` calls
at time 0. -/
def breakerAfterThreeFailures : CircuitBreaker :=
  (((CircuitBreaker.fresh.record_failure 0).record_failure 0).record_failure 0)

/-! ## Health metrics and agents (agent_orchestration.py lines 115-154, 300-320) -/

/-- The `health_metrics` dict initialised in `BaseAgent.__init__`
(lines 123-127). -/
structure HealthMetrics where
  success_rate : ℚ := 1
  avg_response_time : ℚ := 0
  error_count : ℕ := 0
deriving DecidableEq, Repr

/-- Method `AgentOrchestrator._update_health_metrics` (lines 300-320): exponential
moving average with smoothing factor `alpha = 0.1` for the success rate and
the response time; the error count is incremented on failure.
`execution_time` is `(datetime.now() - start_time).total_seconds()`. -/
def updateHealthMetrics (m : HealthMetrics) (execution_time : ℚ)
    (success : Bool) : HealthMetrics :=
  let alpha : ℚ := 1/10
  let current_success : ℚ := if success then 1 else 0
  { success_rate := alpha * current_success + (1 - alpha) * m.success_rate,
    avg_response_time :=
      alpha * execution_time + (1 - alpha) * m.avg_response_time,
    error_count := if success then m.error_count else m.error_count + 1 }

/-- A registered unit: the mutable fields of `BaseAgent` (lines 118-127). -/
structure Agent where
  name : String
  state : AgentState := .idle
  last_active : ℕ := 0
  circuit_breaker : CircuitBreaker := {}
  health_metrics : HealthMetrics := {}
deriving DecidableEq, Repr

/-- Method `BaseAgent.health_check` (lines 142-154): healthy iff not failed, the
success rate is at least `0.8` and the error count is below 5. -/
def Agent.health_check (a : Agent) : Bool :=
  decide (a.state ≠ AgentState.failed) &&
  decide (a.health_metrics.success_rate ≥ 4/5) &&
  decide (a.health_metrics.error_count < 5)

/-! ## Orchestrator, recovery strategies and dispatch
(agent_orchestration.py lines 156-333) -/

/-- The registry of the orchestrator, `self.agents : Dict[str, BaseAgent]`
(line 160), modelled as an association list keyed by agent name. -/
structure Orchestrator where
  agents : List (String × Agent)
deriving DecidableEq, Repr

/-- Key lookup in an association list (Python `dict.get`). -/
def lookupAgent : List (String × Agent) → String → Option Agent
  | [], _ => none
  | p :: t, name => if p.1 = name then some p.2 else lookupAgent t name

/-- Look an agent up in the registry (`self.agents.get(agent_name)`). -/
def Orchestrator.get (o : Orchestrator) (name : String) : Option Agent :=
  lookupAgent o.agents name

/-- Write back a mutation of the agent object stored under `name`
(Python mutates the shared object in place). -/
def Orchestrator.set (o : Orchestrator) (name : String) (f : Agent → Agent) :
    Orchestrator :=
  ⟨o.agents.map (fun p => if p.1 = name then (p.1, f p.2) else p)⟩

/-- The three recovery strategies, in the fixed order of the list at
line 241: restart, failover, graceful_shutdown. -/
inductive Strategy where
  | restart
  | failover
  | graceful_shutdown
deriving DecidableEq, Repr

/-- Method `AgentOrchestrator._recovery_restart` (lines 264-279): set state
Recovering, pause, replace the breaker with a fresh `CircuitBreaker()`,
set state Idle, report success; reports failure when the id is not
registered. -/
def recoveryRestart (o : Orchestrator) (name : String) :
    Orchestrator × Bool :=
  match o.get name with
  | none => (o, false)
  | some _ =>
      (o.set name (fun a =>
        { a with state := AgentState.idle, circuit_breaker := {} }), true)

/-- Method `AgentOrchestrator._recovery_failover` (lines 281-284): a bare
`return False`. -/
def recoveryFailover (o : Orchestrator) (_name : String) :
    Orchestrator × Bool :=
  (o, false)

/-- Method `AgentOrchestrator._recovery_shutdown` (lines 286-298): set state
Stopped, log, report success; reports failure when the id is not
registered. -/
def recoveryShutdown (o : Orchestrator) (name : String) :
    Orchestrator × Bool :=
  match o.get name with
  | none => (o, false)
  | some _ =>
      (o.set name (fun a => { a with state := AgentState.stopped }), true)

/-- Dispatch table `self.recovery_strategies` (lines 163-167). -/
def applyStrategy (o : Orchestrator) (name : String) : Strategy →
    Orchestrator × Bool
  | .restart => recoveryRestart o name
  | .failover => recoveryFailover o name
  | .graceful_shutdown => recoveryShutdown o name

/-- The strategy loop of `_handle_agent_failure` (lines 241-262): try each
strategy in order, stop at the first success.  Also returns the list of
strategies actually attempted. -/
def runStrategies (o : Orchestrator) (name : String) :
    List Strategy → Orchestrator × List Strategy
  | [] => (o, [])
  | s :: rest =>
      let r := applyStrategy o name s
      if r.2 then (r.1, [s])
      else
        let r2 := runStrategies r.1 name rest
        (r2.1, s :: r2.2)

/-- Method `AgentOrchestrator._handle_agent_failure` (lines 232-262): no effect on
an unregistered id; otherwise mark the agent Failed and try
restart → failover → graceful_shutdown, stopping at the first success. -/
def handleAgentFailure (o : Orchestrator) (name : String) :
    Orchestrator × List Strategy :=
  match o.get name with
  | none => (o, [])
  | some _ =>
      let o1 := o.set name (fun a => { a with state := AgentState.failed })
      runStrategies o1 name
        [Strategy.restart, Strategy.failover, Strategy.graceful_shutdown]

/-- Method `AgentOrchestrator.run_agent` (lines 183-215) for a registered agent.
`now` models `datetime.now()` in seconds, `execution_time` the elapsed
`total_seconds()` of the attempt, and `run_result` the outcome of
`await agent.run()` — `Except.error` when `run` raises.  Returns the
value returned to the caller, the updated orchestrator and the list of
recovery strategies attempted (empty when recovery was not invoked). -/
def runAgent {R : Type} (o : Orchestrator) (name : String) (now : ℕ)
    (execution_time : ℚ) (run_result : Except String R) :
    Option R × Orchestrator × List Strategy :=
  match o.get name with
  | none => (none, o, [])
  | some a =>
      let gate := a.circuit_breaker.should_allow_request now
      let allowed := gate.1
      let cb1 := gate.2
      let o := o.set name (fun a => { a with circuit_breaker := cb1 })
      if !allowed then
        (none, o, [])
      else
        let o := o.set name (fun a =>
          { a with state := AgentState.running, last_active := now })
        match run_result with
        | .ok r =>
            let o := o.set name (fun a =>
              { a with
                circuit_breaker := a.circuit_breaker.record_success,
                health_metrics :=
                  updateHealthMetrics a.health_metrics execution_time true })
            (some r, o, [])
        | .error _ =>
            let cbf := cb1.record_failure now
            let o := o.set name (fun a =>
              { a with
                circuit_breaker := cbf,
                health_metrics :=
                  updateHealthMetrics a.health_metrics execution_time false })
            if cbf.is_open then
              let r := handleAgentFailure o name
              (none, r.1, r.2)
            else
              (none, o, [])

/-! ## Primitive mutations of a single agent

Every place in `agent_orchestration.py` that mutates a registered agent is
one of the following primitive operations (the code paths of `run_agent`,
`_handle_agent_failure` and the recovery strategies are compositions of
them). -/

/-- The primitive per-agent mutations appearing in the source. -/
inductive AgentOp where
  /-- `_update_health_metrics(agent, start_time, success)`. -/
  | update_metrics (success : Bool) (execution_time : ℚ)
  /-- `agent.circuit_breaker.record_success()`. -/
  | breaker_success
  /-- `agent.circuit_breaker.record_failure()` at time `now`. -/
  | breaker_failure (now : ℕ)
  /-- `agent.circuit_breaker.should_allow_request()` (mutates on the timed
  half-open admission). -/
  | breaker_gate (now : ℕ)
  /-- `run_agent`: `agent.state = RUNNING; agent.last_active = now`. -/
  | mark_running (now : ℕ)
  /-- `_handle_agent_failure`: `agent.state = FAILED`. -/
  | mark_failed
  /-- `_recovery_restart`: fresh breaker, state Idle. -/
  | restart
  /-- `_recovery_shutdown`: state Stopped. -/
  | shutdown
deriving DecidableEq, Repr

/-- Apply a primitive mutation to an agent. -/
def applyOp (a : Agent) : AgentOp → Agent
  | .update_metrics success dt =>
      { a with health_metrics := updateHealthMetrics a.health_metrics dt success }
  | .breaker_success =>
      { a with circuit_breaker := a.circuit_breaker.record_success }
  | .breaker_failure now =>
      { a with circuit_breaker := a.circuit_breaker.record_failure now }
  | .breaker_gate now =>
      { a with circuit_breaker := (a.circuit_breaker.should_allow_request now).2 }
  | .mark_running now =>
      { a with state := AgentState.running, last_active := now }
  | .mark_failed => { a with state := AgentState.failed }
  | .restart =>
      { a with state := AgentState.idle, circuit_breaker := {} }
  | .shutdown => { a with state := AgentState.stopped }

/-! ## list_agents (spec-modelled) -/

/-- One record of the `list_agents` snapshot. -/
structure AgentSnapshot where
  id : String
  state : AgentState
  lastActive : ℕ
deriving DecidableEq, Repr

/-- Modelled from the spec: `AgentOrchestrator.list_agents` is called at
`src/ui/dashboard.py` line 244 and `src/core/agent_orchestration.py`
line 377 but is not defined anywhere under the source tree.  Spec §4.1:
"`list_agents() -> [{id, state, lastActive}]`: read-only snapshot" — one
record per registered unit, no mutation of any unit or registry state. -/
def listAgents (o : Orchestrator) : List AgentSnapshot :=
  o.agents.map (fun p => ⟨p.1, p.2.state, p.2.last_active⟩)

/-! ## Sliding-window rate limiter (rate_limiter.py) -/

/-- The `RateLimitConfig` dataclass (rate_limiter.py lines 10-14):
`max_requests : int`, `window_seconds : int`,
`backoff_multiplier : float = 2.0`. -/
structure RateLimitConfig where
  max_requests : ℕ
  window_seconds : ℤ
  backoff_multiplier : ℚ := 2
deriving DecidableEq, Repr

/-- The per-(key, endpoint) state of `SlidingWindowRateLimiter`: the
timestamp window from `self._windows[key][endpoint]` and the
`(backoff_until, violations)` pair from `self._backoff_times[key][endpoint]`
(both default to empty / `(0, 0)` via `defaultdict`). -/
structure EndpointState where
  window : List ℚ := []
  backoff_until : ℚ := 0
  violations : ℕ := 0
deriving DecidableEq, Repr

/-- The whole state of the limiter: one `EndpointState` per (key, endpoint). -/
def Limiter : Type := String × String → EndpointState

/-- The limiter constructed by `SlidingWindowRateLimiter()`: every cell at
its `defaultdict` default. -/
def Limiter.empty : Limiter := fun _ => {}

/-- Point update of one (key, endpoint) cell. -/
def Limiter.store (st : Limiter) (k : String × String) (es : EndpointState) :
    Limiter :=
  fun k2 => if k2 = k then es else st k2

/-- Method `SlidingWindowRateLimiter.is_rate_limited` (lines 22-45) at current
time `now` (`time.time()`): prune timestamps `≤ now - window_seconds`;
if `now < backoff_until` report limited (the pruned window is stored, no
timestamp appended); else if the pruned window holds at least
`max_requests` timestamps, increment the violation count, store
`backoff_until = now + window_seconds * multiplier ^ violations` and report
limited; else append `now` and report not limited. -/
def isRateLimited (st : Limiter) (key endpoint : String)
    (config : RateLimitConfig) (now : ℚ) : Bool × Limiter :=
  let es := st (key, endpoint)
  let cutoff : ℚ := now - (config.window_seconds : ℚ)
  let window := es.window.filter (fun ts => decide (ts > cutoff))
  if now < es.backoff_until then
    (true, st.store (key, endpoint) { es with window := window })
  else if window.length ≥ config.max_requests then
    let violations := es.violations + 1
    let backoff_duration : ℚ :=
      (config.window_seconds : ℚ) * config.backoff_multiplier ^ violations
    (true, st.store (key, endpoint)
      { window := window,
        backoff_until := now + backoff_duration,
        violations := violations })
  else
    (false, st.store (key, endpoint) { es with window := window ++ [now] })

/-- Method `SlidingWindowRateLimiter.get_remaining_quota` (lines 47-60): same
pruning; while backed off, `(0, backoff_until - now)`; otherwise the
remaining quota `max(0, max_requests - len(window))` and the time until the
window resets. -/
def getRemainingQuota (st : Limiter) (key endpoint : String)
    (config : RateLimitConfig) (now : ℚ) : (ℕ × ℚ) × Limiter :=
  let es := st (key, endpoint)
  let cutoff : ℚ := now - (config.window_seconds : ℚ)
  let window := es.window.filter (fun ts => decide (ts > cutoff))
  let st2 := st.store (key, endpoint) { es with window := window }
  if now < es.backoff_until then
    ((0, es.backoff_until - now), st2)
  else
    let remaining := config.max_requests - window.length
    let reset_time : ℚ :=
      match window.head? with
      | some ts0 =>
          min (ts0 + (config.window_seconds : ℚ))
            (now + (config.window_seconds : ℚ))
      | none => now + (config.window_seconds : ℚ)
    ((remaining, reset_time - now), st2)

/-! ## Metrics prediction (monitoring/__init__.py) -/

/-- The `SystemMetrics` dataclass (monitoring/__init__.py lines 15-23); floats
are modelled as rationals and the timestamp as seconds. -/
structure SystemMetrics where
  cpu_percent : ℚ
  memory_percent : ℚ
  disk_usage : List (String × ℚ) := []
  open_files : ℕ := 0
  connections : ℕ := 0
  timestamp : ℕ := 0
  prediction_window : Option (ℚ × ℚ) := none
deriving DecidableEq, Repr

/-- Function `scipy.stats.linregress(x, y)` restricted to the slope and intercept of
the least-squares line: `slope = (n·Σxy − Σx·Σy) / (n·Σx² − (Σx)²)`,
`intercept = (Σy − slope·Σx) / n`. -/
def linregress (xs ys : List ℚ) : ℚ × ℚ :=
  let n : ℚ := xs.length
  let sx := xs.sum
  let sy := ys.sum
  let sxx := (xs.zipWith (· * ·) xs).sum
  let sxy := (xs.zipWith (· * ·) ys).sum
  let slope := (n * sxy - sx * sy) / (n * sxx - sx ^ 2)
  let intercept := (sy - slope * sx) / n
  (slope, intercept)

/-- The regression-and-clamp step of `_predict_metrics` for one metric
series `y` over `x = np.arange(len(recent_metrics))`:
`max(0, min(100, intercept + slope * (len(x) + 60)))`. -/
def predictSeries (ys : List ℚ) : ℚ :=
  let x : List ℚ := (List.range ys.length).map (fun i : ℕ => (i : ℚ))
  let r := linregress x ys
  max 0 (min 100 (r.2 + r.1 * ((x.length : ℚ) + 60)))

/-- Method `MonitoringService._predict_metrics` (lines 71-85): `None` with fewer
than 60 samples; otherwise fit the `cpu_percent` and
`memory_percent` against sample index, extrapolate to index
`len(x) + 60` and clamp into `[0, 100]`. -/
def predictMetrics (history : List SystemMetrics) : Option (ℚ × ℚ) :=
  if history.length < 60 then none
  else
    let recent := history.drop (history.length - 60)
    some (predictSeries (recent.map SystemMetrics.cpu_percent),
          predictSeries (recent.map SystemMetrics.memory_percent))

/-! ## Concrete instances used by the witnesses -/

/-- A registered unit with all fields at their initial values. -/
def agentA : Agent := { name := "a" }

/-- A registry holding exactly `agentA`. -/
def orchA : Orchestrator := ⟨[("a", agentA)]⟩

/-- Agent `agentA` with five recorded errors. -/
def agentErr5 : Agent :=
  { name := "a",
    health_metrics := { success_rate := 1, avg_response_time := 0,
                        error_count := 5 } }

/-- A per-endpoint state whose window holds one (future) timestamp. -/
def esFuture : EndpointState := { window := [1000] }

/-- A limiter whose `("k", "e")` cell is `esFuture`. -/
def limFuture : Limiter := Limiter.empty.store ("k", "e") esFuture

/-- The rate-limit configuration of the C2 scenario. -/
def cfg3per60 : RateLimitConfig :=
  { max_requests := 3, window_seconds := 60 }

/-- A one-request-per-60-seconds configuration. -/
def cfg1per60 : RateLimitConfig :=
  { max_requests := 1, window_seconds := 60 }

/-- A 60-sample history rising linearly from 50 by 1 per sample — its
linear extrapolation to index 120 is 170, past the 100 clamp. -/
def historyRising : List SystemMetrics :=
  (List.range 60).map (fun i : ℕ =>
    { cpu_percent := 50 + (i : ℚ), memory_percent := 50 + (i : ℚ) })

/-- One successful-run metrics update (`_update_health_metrics` with
`success=True`; the response-time argument is irrelevant to the success
rate). -/
def emaSuccessStep (m : HealthMetrics) : HealthMetrics :=
  updateHealthMetrics m 0 true

/-- A sequence of `is_rate_limited` calls for one key/endpoint at the given
times, collecting the returned decisions and threading the limiter state. -/
def rateLimitCalls (st : Limiter) (key endpoint : String)
    (config : RateLimitConfig) : List ℚ → List Bool × Limiter
  | [] => ([], st)
  | t :: ts =>
      let r := isRateLimited st key endpoint config t
      let rest := rateLimitCalls r.2 key endpoint config ts
      (r.1 :: rest.1, rest.2)

/-! ## Registry lemmas -/

theorem lookup_set_entry (l : List (String × Agent)) (name : String)
    (f : Agent → Agent) :
    lookupAgent (l.map (fun p => if p.1 = name then (p.1, f p.2) else p)) name
      = (lookupAgent l name).map f := by
  induction l with
  | nil => rfl
  | cons p t ih =>
      by_cases h : p.1 = name
      · simp [lookupAgent, h, ih]
      · simp [lookupAgent, h, ih]

theorem Orchestrator.get_set (o : Orchestrator) (name : String)
    (f : Agent → Agent) :
    (o.set name f).get name = (o.get name).map f := by
  simpa [Orchestrator.get, Orchestrator.set] using
    lookup_set_entry o.agents name f

/-! ## Claim theorems -/

/-- C1: on a fresh breaker, three consecutive `record_failure` calls set
`is_open = true` (threshold 3), and a request 301 seconds after the last
failure is admitted; but a request 86401 seconds after the last failure is
denied although far more than `recovery_timeout = 300` seconds have
elapsed, because the code compares the `timedelta.seconds` component
(elapsed time modulo 86400) — not the total elapsed seconds — with the
timeout.  This evaluates the code at the failing input of the claimed
admission condition "more than recovery_timeout seconds have elapsed". -/
theorem c1_breaker_timeout_wrap :
    breakerAfterThreeFailures.is_open = true ∧
    breakerAfterThreeFailures.failure_count = 3 ∧
    (breakerAfterThreeFailures.should_allow_request 301).1 = true ∧
    (breakerAfterThreeFailures.should_allow_request 86401).1 = false ∧
    86401 - 0 > breakerAfterThreeFailures.recovery_timeout := by
  decide

/-- C3: whenever recovery runs for a registered unit, only `restart` is
attempted — it succeeds immediately, so `failover` and `graceful_shutdown`
are never invoked — and the unit ends in state Idle with a freshly-reset
breaker (`failure_count = 0`, `is_open = false`), its other fields
untouched. -/
theorem c3_recovery_order (o : Orchestrator) (name : String) (a : Agent)
    (h : o.get name = some a) :
    (handleAgentFailure o name).2 = [Strategy.restart] ∧
    Strategy.graceful_shutdown ∉ (handleAgentFailure o name).2 ∧
    Strategy.failover ∉ (handleAgentFailure o name).2 ∧
    (handleAgentFailure o name).1.get name =
      some { a with state := AgentState.idle,
                    circuit_breaker := CircuitBreaker.fresh } ∧
    CircuitBreaker.fresh.failure_count = 0 ∧
    CircuitBreaker.fresh.is_open = false := by
  have hmain : handleAgentFailure o name =
      ((o.set name (fun a => { a with state := AgentState.failed })).set name
        (fun a => { a with state := AgentState.idle, circuit_breaker := {} }),
       [Strategy.restart]) := by
    simp [handleAgentFailure, h, runStrategies, applyStrategy,
      recoveryRestart, Orchestrator.get_set]
  refine ⟨by simp [hmain], by simp [hmain], by simp [hmain], ?_, rfl, rfl⟩
  rw [hmain]
  simp [Orchestrator.get_set, h, CircuitBreaker.fresh]

/-- C3 witness: instantiated on the one-agent registry `orchA`. -/
theorem c3_recovery_order_witness :
    (handleAgentFailure orchA "a").2 = [Strategy.restart] ∧
    Strategy.graceful_shutdown ∉ (handleAgentFailure orchA "a").2 ∧
    Strategy.failover ∉ (handleAgentFailure orchA "a").2 ∧
    (handleAgentFailure orchA "a").1.get "a" =
      some { agentA with state := AgentState.idle,
                         circuit_breaker := CircuitBreaker.fresh } ∧
    CircuitBreaker.fresh.failure_count = 0 ∧
    CircuitBreaker.fresh.is_open = false :=
  c3_recovery_order orchA "a" agentA (by decide)

/-- C7 counterexample: the outcome of the `failover` strategy is the bare
boolean `False`, byte-for-byte the same result an ordinary failed strategy
produces (here: `restart` on an unregistered id) — there is no distinct
"NotImplemented" recovery outcome in the code. -/
theorem c7_failover_not_distinct_counterexample :
    recoveryFailover orchA "a" = (orchA, false) ∧
    (recoveryFailover orchA "a").2 = (recoveryRestart orchA "missing").2 := by
  decide

/-- C7 amended: the failover recovery strategy always reports failure for
every orchestrator state and unit id — a plain boolean `false` with the
state unchanged, indistinguishable from an ordinary strategy failure; the
code provides no distinct "NotImplemented" outcome. -/
theorem c7_failover_always_false (o : Orchestrator) (name : String) :
    recoveryFailover o name = (o, false) := rfl

/-- C4: when `run()` raises for a registered, admitted unit, `runAgent`
returns `None` (the exception is absorbed, never propagated — the embedded
`runAgent` is a total function whose error branch is modelled explicitly),
the failure is recorded on the breaker, the health metrics are updated with
`success = false` — the success-rate EMA becomes `0.9` of its old value
(strictly lower whenever it was positive) and the error count grows by
one — and the recovery handler is invoked if and only if the breaker is
open after that failure is recorded. -/
theorem c4_run_failure_contained (R : Type) (o : Orchestrator)
    (name : String) (a : Agent) (now : ℕ) (dt : ℚ) (e : String)
    (h : o.get name = some a)
    (hallow : (a.circuit_breaker.should_allow_request now).1 = true) :
    (runAgent (R := R) o name now dt (Except.error e)).1 = none ∧
    ((runAgent (R := R) o name now dt (Except.error e)).2.2 ≠ [] ↔
      ((a.circuit_breaker.should_allow_request now).2.record_failure
        now).is_open = true) ∧
    ∃ a2, (runAgent (R := R) o name now dt (Except.error e)).2.1.get name
        = some a2 ∧
      a2.health_metrics = updateHealthMetrics a.health_metrics dt false ∧
      a2.health_metrics.success_rate
        = (9/10) * a.health_metrics.success_rate ∧
      a2.health_metrics.error_count = a.health_metrics.error_count + 1 ∧
      (0 < a.health_metrics.success_rate →
        a2.health_metrics.success_rate < a.health_metrics.success_rate) := by
  have hsr : (updateHealthMetrics a.health_metrics dt false).success_rate
      = (9/10) * a.health_metrics.success_rate := by
    simp only [updateHealthMetrics]
    norm_num
  have herr : (updateHealthMetrics a.health_metrics dt false).error_count
      = a.health_metrics.error_count + 1 := by
    simp [updateHealthMetrics]
  by_cases hopen :
      ((a.circuit_breaker.should_allow_request now).2.record_failure
        now).is_open
  · refine ⟨?_, ?_,
      { a with state := AgentState.idle, last_active := now,
               circuit_breaker := {},
               health_metrics := updateHealthMetrics a.health_metrics dt
                 false },
      ?_, rfl, hsr, herr, ?_⟩
    · simp [runAgent, h, hallow, hopen]
    · simp [runAgent, h, hallow, hopen, handleAgentFailure,
        Orchestrator.get_set, runStrategies, applyStrategy, recoveryRestart]
    · simp [runAgent, h, hallow, hopen, handleAgentFailure,
        Orchestrator.get_set, runStrategies, applyStrategy, recoveryRestart]
    · intro hpos
      show (updateHealthMetrics a.health_metrics dt false).success_rate < _
      rw [hsr]
      linarith
  · refine ⟨?_, ?_,
      { a with state := AgentState.running, last_active := now,
               circuit_breaker :=
                 (a.circuit_breaker.should_allow_request now).2.record_failure
                   now,
               health_metrics := updateHealthMetrics a.health_metrics dt
                 false },
      ?_, rfl, hsr, herr, ?_⟩
    · simp [runAgent, h, hallow, hopen]
    · simp [runAgent, h, hallow, hopen]
    · simp [runAgent, h, hallow, hopen, Orchestrator.get_set]
    · intro hpos
      show (updateHealthMetrics a.health_metrics dt false).success_rate < _
      rw [hsr]
      linarith

/-- C4 witness: instantiated on `orchA` with a failing run at time 0. -/
theorem c4_run_failure_contained_witness :
    (runAgent (R := Unit) orchA "a" 0 0 (Except.error "boom")).1 = none ∧
    ((runAgent (R := Unit) orchA "a" 0 0 (Except.error "boom")).2.2 ≠ [] ↔
      ((agentA.circuit_breaker.should_allow_request 0).2.record_failure
        0).is_open = true) ∧
    ∃ a2, (runAgent (R := Unit) orchA "a" 0 0
        (Except.error "boom")).2.1.get "a" = some a2 ∧
      a2.health_metrics = updateHealthMetrics agentA.health_metrics 0 false ∧
      a2.health_metrics.success_rate
        = (9/10) * agentA.health_metrics.success_rate ∧
      a2.health_metrics.error_count
        = agentA.health_metrics.error_count + 1 ∧
      (0 < agentA.health_metrics.success_rate →
        a2.health_metrics.success_rate
          < agentA.health_metrics.success_rate) :=
  c4_run_failure_contained Unit orchA "a" agentA 0 0 "boom" (by decide)
    (by decide)

/-- The error count never decreases under any single primitive mutation. -/
theorem applyOp_error_count_mono (a : Agent) (op : AgentOp) :
    a.health_metrics.error_count ≤ (applyOp a op).health_metrics.error_count := by
  cases op with
  | update_metrics s dt =>
      cases s <;> simp [applyOp, updateHealthMetrics]
  | breaker_success => exact le_refl _
  | breaker_failure now => exact le_refl _
  | breaker_gate now => exact le_refl _
  | mark_running now => exact le_refl _
  | mark_failed => exact le_refl _
  | restart => exact le_refl _
  | shutdown => exact le_refl _

/-- C9: the error count is monotonically non-decreasing under every
primitive mutation the source performs on an agent; the restart recovery
strategy leaves `health_metrics` completely untouched (it replaces only the
breaker and the state); hence once `error_count` reaches 5, every later
`health_check` — after any sequence of operations, including arbitrarily
many successful runs — returns `false`. -/
theorem c9_error_count_monotone :
    (∀ (a : Agent) (op : AgentOp),
      a.health_metrics.error_count
        ≤ (applyOp a op).health_metrics.error_count) ∧
    (∀ a : Agent, (applyOp a AgentOp.restart).health_metrics
        = a.health_metrics) ∧
    (∀ (a : Agent) (ops : List AgentOp),
      5 ≤ a.health_metrics.error_count →
      Agent.health_check (ops.foldl applyOp a) = false) := by
  refine ⟨applyOp_error_count_mono, fun a => rfl, ?_⟩
  have key : ∀ (ops : List AgentOp) (a : Agent),
      5 ≤ a.health_metrics.error_count →
      5 ≤ (ops.foldl applyOp a).health_metrics.error_count := by
    intro ops
    induction ops with
    | nil => intro a h; exact h
    | cons op t ih =>
        intro a h
        exact ih _ (le_trans h (applyOp_error_count_mono a op))
  intro a ops h5
  have hnot : ¬ (ops.foldl applyOp a).health_metrics.error_count < 5 := by
    have := key ops a h5
    omega
  simp [Agent.health_check, hnot]

/-- C9 witness: an agent with five recorded errors stays unhealthy after a
successful-run metrics update followed by a restart. -/
theorem c9_error_count_monotone_witness :
    5 ≤ agentErr5.health_metrics.error_count ∧
    Agent.health_check
      ([AgentOp.update_metrics true 0, AgentOp.restart].foldl applyOp
        agentErr5) = false :=
  ⟨by decide,
   c9_error_count_monotone.2.2 agentErr5
     [AgentOp.update_metrics true 0, AgentOp.restart] (by decide)⟩

/-- C10 (modelled from the spec, `list_agents` being absent from the source
tree): `listAgents` yields exactly one `{id, state, lastActive}` record per
registered unit, in registry order; being a pure function of the
orchestrator value it mutates neither the registry nor any unit. -/
theorem c10_list_agents_snapshot (o : Orchestrator) (i : ℕ) :
    (listAgents o).length = o.agents.length ∧
    (listAgents o).get? i = (o.agents.get? i).map
      (fun p => ⟨p.1, p.2.state, p.2.last_active⟩) := by
  constructor
  · simp [listAgents]
  · simp [listAgents]

/-- One EMA success step on the success rate. -/
theorem emaSuccessStep_success_rate (m : HealthMetrics) :
    (emaSuccessStep m).success_rate = 1/10 + (9/10) * m.success_rate := by
  simp only [emaSuccessStep, updateHealthMetrics]
  norm_num

/-- Closed form of the success-rate EMA under consecutive successes. -/
theorem ema_iterate_success (n : ℕ) (m : HealthMetrics) :
    (emaSuccessStep^[n] m).success_rate
      = 1 - (1 - m.success_rate) * (9/10)^n := by
  induction n with
  | zero => simp
  | succ k ih =>
      rw [Function.iterate_succ_apply', emaSuccessStep_success_rate, ih]
      ring

/-- C6: each run attempt updates the success rate by the EMA rule
`new = 0.1·observed + 0.9·old` (`observed` is 1 on success, 0 on failure);
starting from `success_rate = 0.5`, fifty consecutive successful updates
give exactly `1 - 0.5·0.9⁵⁰`, which is strictly greater than `0.99`. -/
theorem c6_ema_convergence :
    (∀ (m : HealthMetrics) (s : Bool) (dt : ℚ),
      (updateHealthMetrics m dt s).success_rate
        = (1/10) * (if s then (1 : ℚ) else 0) + (9/10) * m.success_rate) ∧
    (emaSuccessStep^[50]
        { success_rate := 1/2, avg_response_time := 0,
          error_count := 0 }).success_rate = 1 - (1/2) * (9/10)^50 ∧
    (1 : ℚ) - (1/2) * (9/10)^50 > 99/100 := by
  refine ⟨?_, ?_, ?_⟩
  · intro m s dt
    simp only [updateHealthMetrics]
    norm_num
  · rw [ema_iterate_success]
    norm_num
  · norm_num

/-! ## Rate limiter lemmas -/

/-- Storing twice into the same cell keeps only the second write. -/
theorem Limiter.store_store (st : Limiter) (k : String × String)
    (es1 es2 : EndpointState) :
    (st.store k es1).store k es2 = st.store k es2 := by
  funext k2
  simp only [Limiter.store]
  by_cases h : k2 = k <;> simp [h]

/-- Backed-off case of `is_rate_limited`: report limited, store the pruned
window, append nothing, leave backoff and violation count unchanged. -/
theorem isRateLimited_backoff_case (st : Limiter) (key endpoint : String)
    (config : RateLimitConfig) (now : ℚ)
    (h : now < (st (key, endpoint)).backoff_until) :
    isRateLimited st key endpoint config now
      = (true, st.store (key, endpoint)
          { st (key, endpoint) with
            window := (st (key, endpoint)).window.filter
              (fun ts => decide (ts > now - (config.window_seconds : ℚ))) }) := by
  simp [isRateLimited, h]

/-- Violation case of `is_rate_limited`: with the backoff expired and the
pruned window at capacity, report limited, bump the violation count and
store `backoff_until = now + window_seconds * multiplier ^ violations`. -/
theorem isRateLimited_violation_case (st : Limiter) (key endpoint : String)
    (config : RateLimitConfig) (now : ℚ)
    (h1 : ¬ now < (st (key, endpoint)).backoff_until)
    (h2 : config.max_requests ≤ ((st (key, endpoint)).window.filter
      (fun ts => decide (ts > now - (config.window_seconds : ℚ)))).length) :
    isRateLimited st key endpoint config now
      = (true, st.store (key, endpoint)
          { window := (st (key, endpoint)).window.filter
              (fun ts => decide (ts > now - (config.window_seconds : ℚ))),
            backoff_until := now + (config.window_seconds : ℚ)
              * config.backoff_multiplier
                ^ ((st (key, endpoint)).violations + 1),
            violations := (st (key, endpoint)).violations + 1 }) := by
  simp [isRateLimited, h1, ge_iff_le, h2]

/-- Admitting case of `is_rate_limited`: with the backoff expired and room
in the pruned window, append `now` and report not limited. -/
theorem isRateLimited_allow_case (st : Limiter) (key endpoint : String)
    (config : RateLimitConfig) (now : ℚ)
    (h1 : ¬ now < (st (key, endpoint)).backoff_until)
    (h2 : ((st (key, endpoint)).window.filter
      (fun ts => decide (ts > now - (config.window_seconds : ℚ)))).length
        < config.max_requests) :
    isRateLimited st key endpoint config now
      = (false, st.store (key, endpoint)
          { st (key, endpoint) with
            window := (st (key, endpoint)).window.filter
              (fun ts => decide (ts > now - (config.window_seconds : ℚ)))
              ++ [now] }) := by
  simp [isRateLimited, h1, ge_iff_le, not_le.mpr h2]

/-- C2: from an empty limiter with `max_requests = 3`,
`window_seconds = 60`, four calls within 10 seconds are admitted,
admitted, admitted, denied; a quota check right after the denial reports
`remaining = 0` with a strictly positive reset time.  In general,
`is_rate_limited` first prunes timestamps older than the window, reports
limited without appending while `now < backoff_until`, reports limited and
records a violation (storing the new backoff) when the pruned window is at
capacity, and otherwise appends `now` and reports not limited. -/
theorem c2_rate_limiter_window (t1 t2 t3 t4 : ℚ)
    (h0 : 0 ≤ t1) (h12 : t1 ≤ t2) (h23 : t2 ≤ t3) (h34 : t3 ≤ t4)
    (hspan : t4 ≤ t1 + 10) :
    (rateLimitCalls Limiter.empty "k" "e" cfg3per60 [t1, t2, t3, t4]).1
      = [false, false, false, true] ∧
    (getRemainingQuota
      (rateLimitCalls Limiter.empty "k" "e" cfg3per60 [t1, t2, t3, t4]).2
      "k" "e" cfg3per60 t4).1.1 = 0 ∧
    0 < (getRemainingQuota
      (rateLimitCalls Limiter.empty "k" "e" cfg3per60 [t1, t2, t3, t4]).2
      "k" "e" cfg3per60 t4).1.2 ∧
    (∀ (st : Limiter) (k e : String) (c : RateLimitConfig) (now : ℚ),
      now < (st (k, e)).backoff_until →
      isRateLimited st k e c now
        = (true, st.store (k, e) { st (k, e) with
            window := (st (k, e)).window.filter
              (fun ts => decide (ts > now - (c.window_seconds : ℚ))) })) ∧
    (∀ (st : Limiter) (k e : String) (c : RateLimitConfig) (now : ℚ),
      ¬ now < (st (k, e)).backoff_until →
      c.max_requests ≤ ((st (k, e)).window.filter
        (fun ts => decide (ts > now - (c.window_seconds : ℚ)))).length →
      isRateLimited st k e c now
        = (true, st.store (k, e)
            { window := (st (k, e)).window.filter
                (fun ts => decide (ts > now - (c.window_seconds : ℚ))),
              backoff_until := now + (c.window_seconds : ℚ)
                * c.backoff_multiplier ^ ((st (k, e)).violations + 1),
              violations := (st (k, e)).violations + 1 })) ∧
    (∀ (st : Limiter) (k e : String) (c : RateLimitConfig) (now : ℚ),
      ¬ now < (st (k, e)).backoff_until →
      ((st (k, e)).window.filter
        (fun ts => decide (ts > now - (c.window_seconds : ℚ)))).length
          < c.max_requests →
      isRateLimited st k e c now
        = (false, st.store (k, e) { st (k, e) with
            window := (st (k, e)).window.filter
              (fun ts => decide (ts > now - (c.window_seconds : ℚ)))
              ++ [now] })) := by
  have hb1 : ¬ t1 < (0 : ℚ) := not_lt.mpr h0
  have hb2 : ¬ t2 < (0 : ℚ) := not_lt.mpr (le_trans h0 h12)
  have hb3 : ¬ t3 < (0 : ℚ) := not_lt.mpr (le_trans (le_trans h0 h12) h23)
  have hb4 : ¬ t4 < (0 : ℚ) :=
    not_lt.mpr (le_trans (le_trans (le_trans h0 h12) h23) h34)
  have hk12 : t2 - (60 : ℚ) < t1 := by linarith
  have hk13 : t3 - (60 : ℚ) < t1 := by linarith
  have hk23 : t3 - (60 : ℚ) < t2 := by linarith
  have hk14 : t4 - (60 : ℚ) < t1 := by linarith
  have hk24 : t4 - (60 : ℚ) < t2 := by linarith
  have hk34 : t4 - (60 : ℚ) < t3 := by linarith
  have hcalls : rateLimitCalls Limiter.empty "k" "e" cfg3per60 [t1, t2, t3, t4]
      = ([false, false, false, true],
         Limiter.empty.store ("k", "e")
          { window := [t1, t2, t3],
            backoff_until := t4 + 60 * 2 ^ 1,
            violations := 1 }) := by
    simp [rateLimitCalls, isRateLimited, Limiter.empty, Limiter.store,
      Limiter.store_store, cfg3per60, hb1, hb2, hb3, hb4, hk12, hk13, hk23,
      hk14, hk24, hk34, List.filter]
  refine ⟨by rw [hcalls], ?_, ?_,
    fun st k e c now h => isRateLimited_backoff_case st k e c now h,
    fun st k e c now h1 h2 => isRateLimited_violation_case st k e c now h1 h2,
    fun st k e c now h1 h2 => isRateLimited_allow_case st k e c now h1 h2⟩
  · rw [hcalls]
    have hlt : t4 < t4 + 60 * 2 ^ 1 := by linarith
    simp [getRemainingQuota, Limiter.store, hlt]
  · rw [hcalls]
    have hlt : t4 < t4 + 60 * 2 ^ 1 := by linarith
    simp [getRemainingQuota, Limiter.store, hlt]

/-- C2 witness: the four-call scenario at times 0, 1, 2, 3. -/
theorem c2_rate_limiter_window_witness :
    (rateLimitCalls Limiter.empty "k" "e" cfg3per60 [0, 1, 2, 3]).1
      = [false, false, false, true] ∧
    (getRemainingQuota
      (rateLimitCalls Limiter.empty "k" "e" cfg3per60 [0, 1, 2, 3]).2
      "k" "e" cfg3per60 3).1.1 = 0 ∧
    0 < (getRemainingQuota
      (rateLimitCalls Limiter.empty "k" "e" cfg3per60 [0, 1, 2, 3]).2
      "k" "e" cfg3per60 3).1.2 := by
  have h := c2_rate_limiter_window 0 1 2 3 (by norm_num) (by norm_num)
    (by norm_num) (by norm_num) (by norm_num)
  exact ⟨h.1, h.2.1, h.2.2.1⟩

/-- Cells other than the addressed (key, endpoint) are untouched by
`is_rate_limited`. -/
theorem isRateLimited_snd_other (st : Limiter) (key endpoint : String)
    (config : RateLimitConfig) (now : ℚ) (k2 : String × String)
    (h : k2 ≠ (key, endpoint)) :
    (isRateLimited st key endpoint config now).2 k2 = st k2 := by
  simp only [isRateLimited]
  split_ifs <;> simp [Limiter.store, h]

/-- Method `get_remaining_quota` only reprunes the addressed window; in
particular it never changes any stored `backoff_until`. -/
theorem getRemainingQuota_snd (st : Limiter) (key endpoint : String)
    (config : RateLimitConfig) (now : ℚ) :
    (getRemainingQuota st key endpoint config now).2
      = st.store (key, endpoint)
          { st (key, endpoint) with
            window := (st (key, endpoint)).window.filter
              (fun ts => decide (ts > now - (config.window_seconds : ℚ))) } := by
  simp only [getRemainingQuota]
  split_ifs <;> rfl

/-- C5: a violation with prior count `v` stores
`backoff_until = now + window_seconds * multiplier ^ (v+1)` — so the k-th
violation yields delta `window_seconds * multiplier ^ k`; across two
consecutive violations the second delta equals the first scaled by exactly
the multiplier, hence strictly larger (for `window_seconds > 0`,
`multiplier > 1`); and no limiter operation ever decreases any stored
`backoff_until` (for a non-negative window and multiplier). -/
theorem c5_backoff_growth (st : Limiter) (key endpoint : String)
    (config : RateLimitConfig) (s s' : ℚ)
    (hws : 0 < (config.window_seconds : ℚ))
    (hm : 1 < config.backoff_multiplier)
    (hb1 : ¬ s < (st (key, endpoint)).backoff_until)
    (hl1 : config.max_requests ≤ ((st (key, endpoint)).window.filter
      (fun ts => decide (ts > s - (config.window_seconds : ℚ)))).length)
    (hb2 : ¬ s' < ((isRateLimited st key endpoint config s).2
      (key, endpoint)).backoff_until)
    (hl2 : config.max_requests
      ≤ (((isRateLimited st key endpoint config s).2
          (key, endpoint)).window.filter
        (fun ts => decide (ts > s' - (config.window_seconds : ℚ)))).length) :
    ((isRateLimited st key endpoint config s).2 (key, endpoint)).backoff_until
      = s + (config.window_seconds : ℚ) * config.backoff_multiplier
          ^ ((st (key, endpoint)).violations + 1) ∧
    ((isRateLimited (isRateLimited st key endpoint config s).2
        key endpoint config s').2 (key, endpoint)).backoff_until
      = s' + (config.window_seconds : ℚ) * config.backoff_multiplier
          ^ ((st (key, endpoint)).violations + 2) ∧
    ((isRateLimited (isRateLimited st key endpoint config s).2
        key endpoint config s').2 (key, endpoint)).backoff_until - s'
      = config.backoff_multiplier
        * (((isRateLimited st key endpoint config s).2
            (key, endpoint)).backoff_until - s) ∧
    ((isRateLimited st key endpoint config s).2
        (key, endpoint)).backoff_until - s
      < ((isRateLimited (isRateLimited st key endpoint config s).2
          key endpoint config s').2 (key, endpoint)).backoff_until - s' ∧
    (∀ (st0 : Limiter) (k e : String) (c : RateLimitConfig) (now : ℚ)
        (k2 : String × String),
      0 ≤ (c.window_seconds : ℚ) → 0 ≤ c.backoff_multiplier →
      (st0 k2).backoff_until
        ≤ ((isRateLimited st0 k e c now).2 k2).backoff_until) ∧
    (∀ (st0 : Limiter) (k e : String) (c : RateLimitConfig) (now : ℚ)
        (k2 : String × String),
      (st0 k2).backoff_until
        ≤ ((getRemainingQuota st0 k e c now).2 k2).backoff_until) := by
  have hcell1 : (isRateLimited st key endpoint config s).2 (key, endpoint)
      = { window := (st (key, endpoint)).window.filter
            (fun ts => decide (ts > s - (config.window_seconds : ℚ))),
          backoff_until := s + (config.window_seconds : ℚ)
            * config.backoff_multiplier
              ^ ((st (key, endpoint)).violations + 1),
          violations := (st (key, endpoint)).violations + 1 } := by
    rw [isRateLimited_violation_case st key endpoint config s hb1 hl1]
    simp [Limiter.store]
  have hcell2 : (isRateLimited (isRateLimited st key endpoint config s).2
      key endpoint config s').2 (key, endpoint)
      = { window := (((isRateLimited st key endpoint config s).2
            (key, endpoint)).window.filter
              (fun ts => decide (ts > s' - (config.window_seconds : ℚ)))),
          backoff_until := s' + (config.window_seconds : ℚ)
            * config.backoff_multiplier
              ^ ((st (key, endpoint)).violations + 2),
          violations := (st (key, endpoint)).violations + 2 } := by
    rw [isRateLimited_violation_case _ key endpoint config s' hb2 hl2]
    simp [Limiter.store, hcell1]
  have hmpos : (0 : ℚ) < config.backoff_multiplier := lt_trans one_pos hm
  have hppos : (0 : ℚ) < config.backoff_multiplier
      ^ ((st (key, endpoint)).violations + 1) := pow_pos hmpos _
  refine ⟨by rw [hcell1], by rw [hcell2], ?_, ?_, ?_, ?_⟩
  · rw [hcell1, hcell2]
    simp only [add_sub_cancel_left]
    ring
  · rw [hcell1, hcell2]
    simp only [add_sub_cancel_left]
    have : config.backoff_multiplier ^ ((st (key, endpoint)).violations + 2)
        = config.backoff_multiplier
            ^ ((st (key, endpoint)).violations + 1)
          * config.backoff_multiplier := by
      ring
    rw [this]
    have hstep : config.backoff_multiplier
          ^ ((st (key, endpoint)).violations + 1)
        < config.backoff_multiplier
            ^ ((st (key, endpoint)).violations + 1)
          * config.backoff_multiplier := by
      nlinarith
    exact mul_lt_mul_of_pos_left hstep hws
  · intro st0 k e c now k2 hws0 hm0
    by_cases hk : k2 = (k, e)
    · subst hk
      by_cases hb : now < (st0 (k, e)).backoff_until
      · rw [isRateLimited_backoff_case st0 k e c now hb]
        simp [Limiter.store]
      · by_cases hl : c.max_requests ≤ ((st0 (k, e)).window.filter
            (fun ts => decide (ts > now - (c.window_seconds : ℚ)))).length
        · rw [isRateLimited_violation_case st0 k e c now hb hl]
          have hb' : (st0 (k, e)).backoff_until ≤ now := not_lt.mp hb
          have hterm : 0 ≤ (c.window_seconds : ℚ)
              * c.backoff_multiplier ^ ((st0 (k, e)).violations + 1) :=
            mul_nonneg hws0 (pow_nonneg hm0 _)
          simp [Limiter.store]
          linarith
        · rw [isRateLimited_allow_case st0 k e c now hb (not_le.mp hl)]
          simp [Limiter.store]
    · rw [isRateLimited_snd_other st0 k e c now k2 hk]
  · intro st0 k e c now k2
    rw [getRemainingQuota_snd]
    by_cases hk : k2 = (k, e)
    · subst hk
      simp [Limiter.store]
    · simp [Limiter.store, hk]

/-- C5 witness: two consecutive violations on `limFuture` at times 100 and
220 with a 1-per-60s config; the deltas are `60·2¹ = 120` and
`60·2² = 240`, scaling by exactly the multiplier 2. -/
theorem c5_backoff_growth_witness :
    ((isRateLimited limFuture "k" "e" cfg1per60 100).2
        ("k", "e")).backoff_until
      = 100 + (cfg1per60.window_seconds : ℚ)
          * cfg1per60.backoff_multiplier
            ^ ((limFuture ("k", "e")).violations + 1) ∧
    ((isRateLimited (isRateLimited limFuture "k" "e" cfg1per60 100).2
        "k" "e" cfg1per60 220).2 ("k", "e")).backoff_until
      = 220 + (cfg1per60.window_seconds : ℚ)
          * cfg1per60.backoff_multiplier
            ^ ((limFuture ("k", "e")).violations + 2) ∧
    ((isRateLimited (isRateLimited limFuture "k" "e" cfg1per60 100).2
        "k" "e" cfg1per60 220).2 ("k", "e")).backoff_until - 220
      = cfg1per60.backoff_multiplier
        * (((isRateLimited limFuture "k" "e" cfg1per60 100).2
            ("k", "e")).backoff_until - 100) ∧
    ((isRateLimited limFuture "k" "e" cfg1per60 100).2
        ("k", "e")).backoff_until - 100
      < ((isRateLimited (isRateLimited limFuture "k" "e" cfg1per60 100).2
          "k" "e" cfg1per60 220).2 ("k", "e")).backoff_until - 220 := by
  have h := c5_backoff_growth limFuture "k" "e" cfg1per60 100 220
    (by norm_num [cfg1per60]) (by norm_num [cfg1per60])
    (by norm_num [limFuture, Limiter.store, Limiter.empty, esFuture])
    (by norm_num [limFuture, Limiter.store, Limiter.empty, esFuture,
      cfg1per60, List.filter])
    (by norm_num [isRateLimited, limFuture, Limiter.store, Limiter.empty,
      esFuture, cfg3per60, cfg1per60, List.filter])
    (by norm_num [isRateLimited, limFuture, Limiter.store, Limiter.empty,
      esFuture, cfg3per60, cfg1per60, List.filter])
  exact ⟨h.1, h.2.1, h.2.2.1, h.2.2.2.1⟩

/-! ## Linear-regression lemmas -/

theorem sum_map_range (f : ℕ → ℚ) (n : ℕ) :
    ((List.range n).map f).sum = ∑ i in Finset.range n, f i := by
  induction n with
  | zero => simp
  | succ k ih => rw [List.range_succ]; simp [Finset.sum_range_succ, ih]

theorem zipWith_map_same (f g : ℕ → ℚ) (l : List ℕ) :
    List.zipWith (· * ·) (l.map f) (l.map g) = l.map (fun i => f i * g i) := by
  induction l with
  | nil => rfl
  | cons x t ih => simp [ih]

theorem sum_range_60_cast : (∑ i in Finset.range 60, (i : ℚ)) = 1770 := by
  have hn : (∑ i in Finset.range 60, i) = 1770 := by decide
  rw [← Nat.cast_sum, hn]
  norm_num

theorem sum_range_60_sq :
    (∑ i in Finset.range 60, ((i : ℚ) * i)) = 70210 := by
  have hn : (∑ i in Finset.range 60, i * i) = 70210 := by decide
  have hcast : (∑ i in Finset.range 60, ((i : ℚ) * i))
      = ((∑ i in Finset.range 60, i * i : ℕ) : ℚ) := by
    rw [Nat.cast_sum]
    push_cast
    rfl
  rw [hcast, hn]
  norm_num

/-- On a 60-sample series rising exactly linearly, the least-squares fit
recovers the line and the clamped extrapolation to index 120 saturates at
100 whenever the true line exceeds 100 there. -/
theorem predictSeries_linear (a b : ℚ) (h : 100 < a + b * 120) :
    predictSeries ((List.range 60).map (fun i : ℕ => a + b * (i : ℚ))) = 100 := by
  have hlen : ((List.range 60).map (fun i : ℕ => a + b * (i : ℚ))).length = 60 := by
    rw [List.length_map, List.length_range]
  have hS1 := sum_range_60_cast
  have hS2 := sum_range_60_sq
  have hsy : ((List.range 60).map (fun i : ℕ => a + b * (i : ℚ))).sum
      = 60 * a + 1770 * b := by
    rw [sum_map_range, Finset.sum_add_distrib, Finset.sum_const,
      Finset.card_range, ← Finset.mul_sum, hS1, nsmul_eq_mul]
    push_cast
    ring
  have hsx : ((List.range 60).map (fun i : ℕ => (i : ℚ))).sum = 1770 := by
    rw [sum_map_range, hS1]
  have hsxx : (List.zipWith (· * ·)
      ((List.range 60).map (fun i : ℕ => (i : ℚ)))
      ((List.range 60).map (fun i : ℕ => (i : ℚ)))).sum = 70210 := by
    rw [zipWith_map_same, sum_map_range, hS2]
  have hsxy : (List.zipWith (· * ·)
      ((List.range 60).map (fun i : ℕ => (i : ℚ)))
      ((List.range 60).map (fun i : ℕ => a + b * (i : ℚ)))).sum
      = 1770 * a + 70210 * b := by
    rw [zipWith_map_same, sum_map_range]
    have hterm : ∀ i ∈ Finset.range 60,
        (i : ℚ) * (a + b * i) = a * i + b * ((i : ℚ) * i) := by
      intro i _
      ring
    rw [Finset.sum_congr rfl hterm, Finset.sum_add_distrib,
      ← Finset.mul_sum, ← Finset.mul_sum, hS1, hS2]
    ring
  simp only [predictSeries, linregress, hlen, hsy, hsx, hsxx, hsxy,
    List.length_map, List.length_range, Nat.cast_ofNat]
  have hslope : ((60 : ℚ) * (1770 * a + 70210 * b)
      - 1770 * (60 * a + 1770 * b)) / (60 * 70210 - 1770 ^ 2) = b := by
    rw [div_eq_iff (by norm_num : (60 : ℚ) * 70210 - 1770 ^ 2 ≠ 0)]
    ring
  rw [hslope]
  have hintercept : ((60 : ℚ) * a + 1770 * b - b * 1770) / 60 = a := by
    rw [div_eq_iff (by norm_num : (60 : ℚ) ≠ 0)]
    ring
  rw [hintercept]
  have hmin : min (100 : ℚ) (a + b * ((60 : ℚ) + 60)) = 100 := by
    apply min_eq_left
    linarith
  rw [hmin]
  norm_num

/-- The clamp `max(0, min(100, ·))` keeps every prediction in `[0, 100]`. -/
theorem predictSeries_bounds (ys : List ℚ) :
    0 ≤ predictSeries ys ∧ predictSeries ys ≤ 100 := by
  unfold predictSeries
  constructor
  · exact le_max_left _ _
  · exact max_le (by norm_num) (min_le_left _ _)

/-- C8: with fewer than 60 samples `_predict_metrics` yields nothing; on a
60-sample history whose CPU and memory series rise exactly linearly with an
extrapolation (to index 120) beyond 100, both predictions equal exactly
100; and every prediction it ever produces is clamped into `[0, 100]`. -/
theorem c8_prediction_clamped :
    (∀ history : List SystemMetrics, history.length < 60 →
      predictMetrics history = none) ∧
    (∀ a b c d : ℚ, 100 < a + b * 120 → 100 < c + d * 120 →
      predictMetrics ((List.range 60).map (fun i : ℕ =>
        { cpu_percent := a + b * (i : ℚ),
          memory_percent := c + d * (i : ℚ) })) = some (100, 100)) ∧
    (∀ (history : List SystemMetrics) (p : ℚ × ℚ),
      predictMetrics history = some p →
      0 ≤ p.1 ∧ p.1 ≤ 100 ∧ 0 ≤ p.2 ∧ p.2 ≤ 100) := by
  refine ⟨?_, ?_, ?_⟩
  · intro hist h
    simp [predictMetrics, h]
  · intro a b c d h1 h2
    have hlen : ((List.range 60).map (fun i : ℕ =>
        ({ cpu_percent := a + b * (i : ℚ),
           memory_percent := c + d * (i : ℚ) } : SystemMetrics))).length
        = 60 := by
      rw [List.length_map, List.length_range]
    simp only [predictMetrics, hlen]
    rw [if_neg (by norm_num)]
    norm_num [List.map_map, Function.comp]
    exact ⟨predictSeries_linear a b h1, predictSeries_linear c d h2⟩
  · intro hist p hp
    by_cases h : hist.length < 60
    · simp [predictMetrics, h] at hp
    · simp only [predictMetrics, if_neg h] at hp
      have hpair := Option.some.inj hp
      rw [← hpair]
      exact ⟨(predictSeries_bounds _).1, (predictSeries_bounds _).2,
        (predictSeries_bounds _).1, (predictSeries_bounds _).2⟩

/-- C8 witness: the empty history predicts nothing; `historyRising`
(60 samples climbing linearly from 50, extrapolating to 170) predicts
exactly `(100, 100)`. -/
theorem c8_prediction_clamped_witness :
    predictMetrics [] = none ∧
    predictMetrics historyRising = some (100, 100) := by
  refine ⟨c8_prediction_clamped.1 [] (by norm_num), ?_⟩
  have h2 := c8_prediction_clamped.2.1 50 1 50 1 (by norm_num) (by norm_num)
  have heq : historyRising = (List.range 60).map (fun i : ℕ =>
      ({ cpu_percent := 50 + 1 * (i : ℚ),
         memory_percent := 50 + 1 * (i : ℚ) } : SystemMetrics)) := by
    simp [historyRising]
  rw [heq]
  exact h2
